import Mathlib

/-!
Verification development for the AIOps RCA / auto-remediation service.

The definitions below are a shallow embedding of the Python sources:
  genai_rca_assistant/main.py            (ingestion endpoints, classifier glue)
  genai_rca_assistant/auto_remediation.py (retry table, dispatch engine)
  genai_rca_assistant/ai_provider.py      (keyword fallback classifier)
  genai_rca_assistant/error_extractors.py (event normalizer)
Machine strings are Lean `String`/`List Char`; Python dict/JSON values are the
`Json` inductive; fallible attribute access is `Except PyErr`; the database is
explicit state (lists of tickets and audit entries); network calls and the AI
call are oracle inputs.
-/

/-! ## Case-insensitive character and substring machinery

Python lower-cases strings with `str.lower()` and then does substring tests;
for the ASCII patterns used by this code base that is exactly case-insensitive
comparison, modelled by `lcc` (ASCII lower-casing) and `isPrefixCI`. -/

/-- ASCII lower-casing of one character, as Python `str.lower()` acts on the
ASCII patterns used in this repository. -/
def lcc (c : Char) : Char :=
  if 'A' ≤ c ∧ c ≤ 'Z' then Char.ofNat (c.toNat + 32) else c

/-- `isPrefixCI pat s` : `pat` is a case-insensitive prefix of `s`. -/
def isPrefixCI : List Char → List Char → Bool
  | [], _ => true
  | _ :: _, [] => false
  | p :: ps, s :: ss => (lcc p == lcc s) && isPrefixCI ps ss

/-- `containsCI s pat` : `pat` occurs case-insensitively inside `s`
(Python `pat in s.lower()` for a lower-case ASCII `pat`). -/
def containsCI : List Char → List Char → Bool
  | [], pat => pat.isEmpty
  | s@(_ :: rest), pat => isPrefixCI pat s || containsCI rest pat

/-- The `(ErrorMessage|Message)=` regex alternative, first branch (13 chars). -/
def emPat : List Char :=
  ['e','r','r','o','r','m','e','s','s','a','g','e','=']

/-- The `(ErrorMessage|Message)=` regex alternative, second branch (8 chars). -/
def msgPat : List Char :=
  ['m','e','s','s','a','g','e','=']

/-- The Logic-App forwarding marker checked by
`"forwarded to rca system" in error_message.lower()` and by the regex
lookahead `(?=Forwarded to RCA system)` (both case-insensitive). -/
def fwdPat : List Char :=
  ['f','o','r','w','a','r','d','e','d',' ','t','o',' ','r','c','a',' ',
   's','y','s','t','e','m']

/-- Leftmost position where the alternation `ErrorMessage=` / `Message=`
matches case-insensitively, with `ErrorMessage=` preferred at equal start
position exactly as the regex alternation tries its branches; returns the
position and the matched length. -/
def firstMarker : List Char → Option (Nat × Nat)
  | [] => none
  | s@(_ :: rest) =>
    if isPrefixCI emPat s then some (0, 13)
    else if isPrefixCI msgPat s then some (0, 8)
    else (firstMarker rest).map (fun p => (p.1 + 1, p.2))

/-- Rightmost position where `Forwarded to RCA system` matches
case-insensitively: the greedy `(.+)` of the regex backtracks so that the
lookahead succeeds at the last such occurrence. -/
def lastFwd : List Char → Option Nat
  | [] => none
  | s@(_ :: rest) =>
    match lastFwd rest with
    | some i => some (i + 1)
    | none => if isPrefixCI fwdPat s then some 0 else none

/-- The whitespace class of Python `str.strip()` (ASCII part). -/
def isWs (c : Char) : Bool :=
  c == ' ' || c == '\t' || c == '\n' || c == '\r' ||
  c == Char.ofNat 11 || c == Char.ofNat 12

/-- Remove the matching characters from both ends, as Python `str.strip`. -/
def trimEnds (p : Char → Bool) (l : List Char) : List Char :=
  ((l.dropWhile p).reverse.dropWhile p).reverse

/-- Python `str.lower()` on a whole string (ASCII; the keys and tags this
code base compares are ASCII). -/
def pyLower (s : String) : String :=
  ⟨s.toList.map lcc⟩

/-- Python `str.strip()` (whitespace). -/
def pyStrip (l : List Char) : List Char := trimEnds isWs l

/-- Python `str.strip("'")` (surrounding single quotes; 39 is the quote). -/
def pyStripQuote (l : List Char) : List Char :=
  trimEnds (fun c => c.toNat == 39) l

/-- The Logic-App envelope cleanup shared by `AzureDataFactoryExtractor.extract`
(error_extractors.py lines 63-69) and the `azure_monitor` endpoint
(main.py lines 895-898): when the text contains the forwarding marker,
`re.search(r"(ErrorMessage|Message)=(.+)(?=Forwarded to RCA system)", ...)`
with IGNORECASE|DOTALL extracts group 2 — from the leftmost alternation match
to the rightmost occurrence of the lookahead (greedy `.+`, at least one
character) — then `.strip().strip("'")`. -/
def cleanLogicApp (s : List Char) : List Char :=
  if containsCI s fwdPat then
    match firstMarker s with
    | some (i, l) =>
      match lastFwd s with
      | some j =>
        if i + l < j then
          pyStripQuote (pyStrip ((s.drop (i + l)).take (j - (i + l))))
        else s
      | none => s
    | none => s
  else s

/-! ## Python values and attribute access

Webhook payloads are JSON-like Python values.  `pyGet`/`pyGetD` model
`value.get(key)` / `value.get(key, default)`: on a dict they return the field
(or the default / `None`), on anything else Python raises `AttributeError`. -/

/-- A Python/JSON value as it appears in webhook payloads. -/
inductive Json where
  | null
  | bool (b : Bool)
  | num (n : Int)
  | str (s : String)
  | arr (elems : List Json)
  | obj (fields : List (String × Json))

/-- The Python exceptions the normalizer can raise. -/
inductive PyErr where
  | attributeError
  | typeError
deriving DecidableEq

/-- Python truthiness of a value (`if v:`, `a or b`). -/
def truthy : Json → Bool
  | .null => false
  | .bool b => b
  | .num n => n != 0
  | .str s => !(s == "")
  | .arr l => !l.isEmpty
  | .obj l => !l.isEmpty

/-- First binding of `k` in a Python dict (insertion order, as `dict.get`). -/
def lookupField (fields : List (String × Json)) (k : String) : Option Json :=
  (fields.find? (fun kv => kv.1 == k)).map (fun kv => kv.2)

/-- `v.get(k, d)`: field lookup with default on a dict, `AttributeError`
otherwise. -/
def pyGetD (v : Json) (k : String) (d : Json) : Except PyErr Json :=
  match v with
  | .obj fs => .ok ((lookupField fs k).getD d)
  | _ => .error .attributeError

/-- `v.get(k)` (default `None`). -/
def pyGet (v : Json) (k : String) : Except PyErr Json :=
  pyGetD v k .null

/-- `v.get(k) or rest`: Python `or` keeps the first truthy operand.  Both
sides are pure, so eager evaluation of `rest` agrees with Python's
short-circuit result. -/
def pyGetOr (v : Json) (k : String) (rest : Except PyErr Json) :
    Except PyErr Json := do
  let x ← pyGet v k
  if truthy x then .ok x else rest

/-- `k in v` for the dict membership tests of `DatabricksExtractor.extract`;
the payload is necessarily a dict at those program points (a non-dict would
already have raised in `payload.get("event")`). -/
def pyHasKey (v : Json) (k : String) : Except PyErr Bool :=
  match v with
  | .obj fs => .ok (fs.any (fun kv => kv.1 == k))
  | _ => .error .typeError

/-! ## error_extractors.py — AzureDataFactoryExtractor.extract -/

/-- Result of `AzureDataFactoryExtractor.extract` (error_extractors.py
lines 14-88): `(pipeline_name, run_id, error_message, metadata)`.  The error
message is a genuine string after the Logic-App cleanup (a non-string truthy
field value would have raised in `error_message.lower()`). -/
structure AdfExtracted where
  pipelineName : Json
  runId : Json
  errorMessage : String
  metadata : List (String × Json)

/-- String form of the envelope cleanup applied to `error_message`
(error_extractors.py lines 63-69 and main.py lines 895-898). -/
def cleanLogicAppStr (s : String) : String :=
  ⟨cleanLogicApp s.toList⟩

/-- `AzureDataFactoryExtractor.extract` (error_extractors.py lines 14-88).
Logging calls are side-effect free and elided; `len(error_message)` in the
log line only runs after `error_message` is known to be a string. -/
def adfExtract (payload : Json) : Except PyErr AdfExtracted := do
  let d ← pyGetD payload "data" (.obj [])
  let e1 ← pyGet d "essentials"
  let essentials ←
    if truthy e1 then pure e1
    else do
      let e2 ← pyGet payload "essentials"
      pure (if truthy e2 then e2 else .obj [])
  let d2 ← pyGetD payload "data" (.obj [])
  let ac1 ← pyGet d2 "alertContext"
  let alertContext := if truthy ac1 then ac1 else .obj []
  let p1 ← pyGetD alertContext "properties" (.obj [])
  let properties ←
    if truthy p1 then pure p1 else pyGetD payload "properties" (.obj [])
  let pipelineName ← pyGetOr properties "PipelineName"
    (pyGetOr properties "pipelineName"
      (pyGetOr essentials "alertRule"
        (pyGetOr essentials "pipelineName" (.ok (.str "ADF Pipeline")))))
  let runId ← pyGetOr properties "PipelineRunId"
    (pyGetOr properties "pipelineRunId"
      (pyGetOr properties "RunId"
        (pyGetOr properties "runId" (pyGet essentials "alertId"))))
  let errorObj ← pyGetOr properties "Error"
    (pyGetOr properties "error" (.ok (.obj [])))
  let errJson ← pyGetOr errorObj "message"
    (pyGetOr errorObj "Message"
      (pyGetOr properties "ErrorMessage"
        (pyGetOr properties "errorMessage"
          (pyGetOr properties "detailedMessage"
            (pyGetOr properties "message"
              (pyGetOr essentials "description"
                (.ok (.str
                  "ADF pipeline failed. No detailed error message available."))))))))
  let errorMessage ←
    match errJson with
    | .str s => pure (cleanLogicAppStr s)
    | _ => .error PyErr.attributeError
  let activityName ← pyGetOr properties "ActivityName"
    (pyGet properties "activityName")
  let activityType ← pyGetOr properties "ActivityType"
    (pyGet properties "activityType")
  let errorCode ← pyGetOr errorObj "errorCode"
    (pyGetOr properties "ErrorCode" (pyGet properties "errorCode"))
  let failureType ← pyGetOr errorObj "failureType"
    (pyGet errorObj "FailureType")
  let sev ← pyGet essentials "severity"
  let fired ← pyGet essentials "firedDateTime"
  pure
    { pipelineName := pipelineName
      runId := runId
      errorMessage := errorMessage
      metadata :=
        [("activity_name", activityName), ("activity_type", activityType),
         ("error_code", errorCode), ("failure_type", failureType),
         ("severity", sev), ("fired_time", fired)] }

/-! ## error_extractors.py — DatabricksExtractor

Python builds several error strings with f-strings and `str(payload)`.  The
embedding keeps those constructions abstract as `EText` constructors carrying
their inputs, so that "the original payload is preserved as the error text"
is directly expressible. -/

/-- An error-text (or resource-name) value produced by the Databricks
extractors: either a raw field value, a literal, one of the f-string
constructions, or `str(payload)`. -/
inductive EText where
  | val (j : Json)
  | lit (s : String)
  | fmtJobEvent (eventType : String)
  | fmtLibraryDefault (eventType : String) (libraryName : EText)
  | fmtClusterReason (eventType : String) (stateMessage code typ params : Json)
  | fmtClusterPlain (eventType : String)
  | fmtClusterDashLib (clusterName libraryName : EText)
  | reprOf (j : Json)

/-- `x or rest` where a truthy field value becomes the text. -/
def eTextOr (x : Except PyErr Json) (rest : Except PyErr EText) :
    Except PyErr EText := do
  let v ← x
  if truthy v then .ok (.val v) else rest

/-- Result of `DatabricksExtractor.extract`:
`(resource_name, run_id, event_type, error_message, metadata)`. -/
structure DbxExtracted where
  resourceName : EText
  runId : Json
  eventType : String
  errorMessage : EText
  metadata : List (String × EText)

/-- `DatabricksExtractor._extract_job_event` (error_extractors.py 114-152). -/
def dbxExtractJob (payload : Json) (eventType : String) :
    Except PyErr DbxExtracted := do
  let jobObj ← pyGetD payload "job" (.obj [])
  let runObj ← pyGetD payload "run" (.obj [])
  let settings ← pyGetD jobObj "settings" (.obj [])
  let jobName ← eTextOr (pyGet settings "name")
    (eTextOr (pyGet runObj "run_name")
      (eTextOr (pyGet payload "job_name") (.ok (.lit "Databricks Job"))))
  let runId ← pyGetOr runObj "run_id"
    (pyGetOr payload "run_id" (pyGet payload "job_run_id"))
  let state ← pyGetD runObj "state" (.obj [])
  let errorMessage ← eTextOr (pyGet state "state_message")
    (eTextOr (pyGet runObj "state_message")
      (eTextOr (pyGet payload "error_message")
        (.ok (.fmtJobEvent eventType))))
  let jobId ← pyGetOr jobObj "job_id" (pyGet payload "job_id")
  let clusterInstance ← pyGetD runObj "cluster_instance" (.obj [])
  let clusterId ← pyGet clusterInstance "cluster_id"
  let state2 ← pyGetD runObj "state" (.obj [])
  let lifeCycle ← pyGet state2 "life_cycle_state"
  let state3 ← pyGetD runObj "state" (.obj [])
  let resultState ← pyGet state3 "result_state"
  pure
    { resourceName := jobName, runId := runId, eventType := eventType
      errorMessage := errorMessage
      metadata :=
        [("job_id", .val jobId), ("cluster_id", .val clusterId),
         ("event_type", .lit eventType), ("resource_type", .lit "job"),
         ("life_cycle_state", .val lifeCycle),
         ("result_state", .val resultState)] }

/-- `DatabricksExtractor._extract_cluster_event` (error_extractors.py
154-199). -/
def dbxExtractCluster (payload : Json) (eventType : String) :
    Except PyErr DbxExtracted := do
  let clusterObj ← pyGetD payload "cluster" (.obj [])
  let clusterName ← eTextOr (pyGet clusterObj "cluster_name")
    (eTextOr (pyGet payload "cluster_name")
      (.ok (.lit "Databricks Cluster")))
  let clusterId ← pyGetOr clusterObj "cluster_id" (pyGet payload "cluster_id")
  let terminationReason ← pyGetD clusterObj "termination_reason" (.obj [])
  let stateMessage ← pyGetD clusterObj "state_message" (.str "")
  let errorMessage ←
    if truthy terminationReason then do
      let code ← pyGet terminationReason "code"
      let typ ← pyGet terminationReason "type"
      let params ← pyGetD terminationReason "parameters" (.obj [])
      pure (EText.fmtClusterReason eventType stateMessage code typ params)
    else
      pure (if truthy stateMessage then EText.val stateMessage
            else .fmtClusterPlain eventType)
  let termCode ← pyGet terminationReason "code"
  let termType ← pyGet terminationReason "type"
  let clusterState ← pyGet clusterObj "state"
  let driverNode ← pyGet clusterObj "driver_node_type_id"
  let numWorkers ← pyGet clusterObj "num_workers"
  pure
    { resourceName := clusterName, runId := clusterId, eventType := eventType
      errorMessage := errorMessage
      metadata :=
        [("cluster_id", .val clusterId), ("event_type", .lit eventType),
         ("resource_type", .lit "cluster"),
         ("cluster_state", .val clusterState),
         ("termination_code", .val termCode),
         ("termination_type", .val termType),
         ("driver_node_type", .val driverNode),
         ("num_workers", .val numWorkers)] }

/-- `DatabricksExtractor._extract_library_event` (error_extractors.py
201-235).  `list(library_obj.keys())[0]` is the first key of a truthy dict;
a truthy non-dict would raise there. -/
def dbxExtractLibrary (payload : Json) (eventType : String) :
    Except PyErr DbxExtracted := do
  let libraryObj ← pyGetD payload "library" (.obj [])
  let clusterObj ← pyGetD payload "cluster" (.obj [])
  let clusterName ← eTextOr (pyGet clusterObj "cluster_name")
    (.ok (.lit "Unknown Cluster"))
  let clusterId ← pyGetOr clusterObj "cluster_id" (pyGet payload "cluster_id")
  let pypi ← pyGetD libraryObj "pypi" (.obj [])
  let maven ← pyGetD libraryObj "maven" (.obj [])
  let libraryName ← eTextOr (pyGet pypi "package")
    (eTextOr (pyGet maven "coordinates")
      (eTextOr (pyGet libraryObj "jar") (.ok (.lit "Unknown Library"))))
  let errorMessage ← eTextOr (pyGet payload "error_message")
    (eTextOr (pyGet payload "message")
      (.ok (.fmtLibraryDefault eventType libraryName)))
  let libraryType ←
    if truthy libraryObj then
      match libraryObj with
      | .obj fs => .ok (match fs.head? with
          | some kv => EText.lit kv.1
          | none => EText.lit "unknown")
      | _ => .error PyErr.attributeError
    else .ok (EText.lit "unknown")
  let status ← pyGet payload "status"
  pure
    { resourceName := .fmtClusterDashLib clusterName libraryName
      runId := clusterId, eventType := eventType
      errorMessage := errorMessage
      metadata :=
        [("cluster_id", .val clusterId), ("cluster_name", clusterName),
         ("library", libraryName), ("library_type", libraryType),
         ("event_type", .lit eventType), ("resource_type", .lit "library"),
         ("status", .val status)] }

/-- The keys of a payload dict, `list(payload.keys())`. -/
def objKeys : Json → List String
  | .obj fs => fs.map (fun kv => kv.1)
  | _ => []

/-- `DatabricksExtractor._extract_generic_event` (error_extractors.py
238-262): fallback for unknown event types; the error text degrades to
`str(payload)`, preserving the full original payload. -/
def dbxExtractGeneric (payload : Json) (eventType : String) :
    Except PyErr DbxExtracted := do
  let resourceName ← eTextOr (pyGet payload "name")
    (eTextOr (pyGet payload "resource_name")
      (.ok (.lit "Databricks Resource")))
  let resourceId ← pyGetOr payload "id"
    (pyGetOr payload "resource_id" (.ok (.str "unknown")))
  let errorMessage ← eTextOr (pyGet payload "message")
    (eTextOr (pyGet payload "error_message") (.ok (.reprOf payload)))
  pure
    { resourceName := resourceName, runId := resourceId
      eventType := eventType, errorMessage := errorMessage
      metadata :=
        [("event_type", .lit eventType), ("resource_type", .lit "unknown"),
         ("raw_payload_keys", .val (.arr ((objKeys payload).map .str)))] }

/-- `DatabricksExtractor.extract` (error_extractors.py 91-112): event-type
dispatch.  `event_type.lower()` raises on a truthy non-string event field. -/
def dbxExtract (payload : Json) : Except PyErr DbxExtracted := do
  let ev ← pyGetOr payload "event"
    (pyGetOr payload "event_type" (.ok (.str "unknown")))
  let eventType ←
    match ev with
    | .str s => pure s
    | _ => .error PyErr.attributeError
  let hasRun ← pyHasKey payload "run"
  if containsCI eventType.toList ['j','o','b'] || hasRun then
    dbxExtractJob payload eventType
  else do
    let hasCluster ← pyHasKey payload "cluster"
    if containsCI eventType.toList ['c','l','u','s','t','e','r'] ||
        hasCluster then
      dbxExtractCluster payload eventType
    else if containsCI eventType.toList ['l','i','b','r','a','r','y'] then
      dbxExtractLibrary payload eventType
    else
      dbxExtractGeneric payload eventType

/-! ## error_extractors.py — get_extractor -/

/-- The extractor classes the factory can return. -/
inductive ExtractorKind where
  | adf
  | databricks
  | functions
  | synapse
deriving DecidableEq

/-- `get_extractor` (error_extractors.py 355-367): dictionary lookup on the
lower-cased source tag; an unrecognized tag yields `None` (`dict.get`
default), not a generic extractor. -/
def get_extractor (sourceType : String) : Option ExtractorKind :=
  match pyLower sourceType with
  | "adf" => some .adf
  | "azure_data_factory" => some .adf
  | "databricks" => some .databricks
  | "azure_functions" => some .functions
  | "functions" => some .functions
  | "synapse" => some .synapse
  | "azure_synapse" => some .synapse
  | _ => none

/-! ## auto_remediation.py — retry table and dispatch engine -/

/-- One entry of `RETRY_ELIGIBLE_ERRORS` (auto_remediation.py 29-99); the
`description` strings are inert documentation and elided. -/
structure RemConfig where
  max_retries : Nat
  backoff_seconds : List Nat
  playbook_type : String
deriving DecidableEq

/-- `RETRY_ELIGIBLE_ERRORS` (auto_remediation.py 29-99). -/
def RETRY_ELIGIBLE_ERRORS : List (String × RemConfig) :=
  [("GatewayTimeout", ⟨3, [10, 30, 60], "retry_pipeline"⟩),
   ("HttpConnectionFailed", ⟨3, [5, 15, 30], "retry_pipeline"⟩),
   ("ThrottlingError", ⟨5, [30, 60, 120, 300, 600], "retry_pipeline"⟩),
   ("InternalServerError", ⟨2, [30, 60], "retry_pipeline"⟩),
   ("UserErrorSourceBlobNotExists", ⟨3, [60, 120, 300], "rerun_upstream"⟩),
   ("DatabricksClusterStartFailure", ⟨2, [60, 120], "restart_cluster"⟩),
   ("DatabricksTimeoutError", ⟨2, [30, 60], "retry_job"⟩),
   ("DatabricksDriverNotResponding", ⟨1, [60], "restart_cluster"⟩),
   ("DatabricksLibraryInstallationError", ⟨2, [30, 60], "reinstall_libraries"⟩),
   ("DatabricksResourceExhausted", ⟨2, [60, 120], "scale_cluster"⟩),
   ("ClusterUnexpectedTermination", ⟨2, [60, 120], "restart_cluster"⟩)]

/-- `RETRY_ELIGIBLE_ERRORS[error_type]` lookup. -/
def lookupError (errorType : String) : Option RemConfig :=
  (RETRY_ELIGIBLE_ERRORS.find? (fun kv => kv.1 == errorType)).map
    (fun kv => kv.2)

/-- `is_auto_remediable` (auto_remediation.py 352-354). -/
def is_auto_remediable (errorType : String) : Bool :=
  (lookupError errorType).isSome

/-- `PLAYBOOK_ENV_VARS` (auto_remediation.py 105-113). -/
def PLAYBOOK_ENV_VARS : List (String × String) :=
  [("retry_pipeline", "PLAYBOOK_RETRY_PIPELINE"),
   ("rerun_upstream", "PLAYBOOK_RERUN_UPSTREAM"),
   ("restart_cluster", "PLAYBOOK_RESTART_CLUSTER"),
   ("retry_job", "PLAYBOOK_RETRY_JOB"),
   ("reinstall_libraries", "PLAYBOOK_REINSTALL_LIBRARIES"),
   ("scale_cluster", "PLAYBOOK_SCALE_CLUSTER"),
   ("check_permissions", "PLAYBOOK_CHECK_PERMISSIONS")]

/-- `PLAYBOOK_ENV_VARS.get(playbook_type)`. -/
def playbookEnvVar (playbookType : String) : Option String :=
  (PLAYBOOK_ENV_VARS.find? (fun kv => kv.1 == playbookType)).map
    (fun kv => kv.2)

/-- One row of the `audit_trail` table, restricted to the columns the claims
read (`run_id`, `action`) plus the attempt/backoff numbers that
`attempt_auto_remediation` serializes into its `Attempted` entry; the
free-text `details`/timestamp columns are elided. -/
structure AuditEntry where
  ticketId : String
  action : String
  runId : Option String
  attempt : Option Nat := none
  backoffSeconds : Option Nat := none
deriving DecidableEq

/-- The retry-count query of auto_remediation.py 177-182:
`SELECT COUNT(*) FROM audit_trail WHERE run_id = :run_id AND
action = 'Auto-Remediation Attempted'`. -/
def countAttempts (r : String) (trail : List AuditEntry) : Nat :=
  (trail.filter (fun e =>
    e.runId == some r && e.action == "Auto-Remediation Attempted")).length

/-- The environment and network oracle of one `attempt_auto_remediation`
call: `envUrl` is `os.getenv`, and `httpResult` is the outcome of the
playbook POST — `some (status, new_run_id)` for a returned response
(`new_run_id` already merging `result.get("new_run_id") or
result.get("run_id")`), `none` when the request (or its JSON decoding)
raised. -/
structure RemEnv where
  envUrl : String → Option String
  httpResult : Option (Nat × Option String)

/-- `attempt_auto_remediation` (auto_remediation.py 120-289), returning the
Python result together with the audit entries it appends, in order.  The
retry count is gated by Python's truthiness test `if run_id:` (line 176):
a `None` *or empty-string* run id skips both the attempt count and the
max-retries ceiling, leaving `retry_count = 0`.  The
`await asyncio.sleep(delay)` suspension and the ticket `run_id` UPDATE on
success affect no audited observable of the claims and are elided. -/
def attempt_auto_remediation (ticketId : String) (errorType : String)
    (runId : Option String) (trail : List AuditEntry) (env : RemEnv) :
    Bool × List AuditEntry :=
  match lookupError errorType with
  | none => (false, [])
  | some config =>
    match playbookEnvVar config.playbook_type with
    | none => (false, [])
    | some envVar =>
      match env.envUrl envVar with
      | none =>
        (false, [⟨ticketId, "Auto-Remediation Skipped", runId, none, none⟩])
      | some _url =>
        let proceed : Nat → Bool × List AuditEntry := fun retryCount =>
          let delay := config.backoff_seconds.getD
            (min retryCount (config.backoff_seconds.length - 1)) 0
          let attempted : AuditEntry :=
            ⟨ticketId, "Auto-Remediation Attempted", runId,
             some (retryCount + 1), some delay⟩
          match env.httpResult with
          | some (code, newRunId) =>
            if code == 200 then
              (true, [attempted,
                ⟨ticketId, "Auto-Remediation Succeeded",
                 (newRunId <|> runId), none, none⟩])
            else
              (false, [attempted,
                ⟨ticketId, "Auto-Remediation Failed", runId, none, none⟩])
          | none =>
            (false, [attempted,
              ⟨ticketId, "Auto-Remediation Failed", runId, none, none⟩])
        match runId with
        | some r =>
          if r == "" then proceed 0
          else
            let retryCount := countAttempts r trail
            if config.max_retries ≤ retryCount then
              (false, [⟨ticketId, "Auto-Remediation Max Retries Reached",
                        some r, none, none⟩])
            else proceed retryCount
        | none => proceed 0

/-! ## main.py — classifier glue (derive_priority, fallback_rca,
generate_rca_and_recs) -/

/-- The classification dict flowing out of `generate_rca_and_recs`
(main.py); `none` on a field models an absent key.  The free-text
`recommendations`/`affected_entity`/`auto_heal_strategy` fields are not read
by any claim and are elided. -/
structure Rca where
  root_cause : Option String := none
  error_type : Option String := none
  severity : Option String := none
  priority : Option String := none
  confidence : Option String := none
  auto_heal_possible : Option Bool := none
deriving DecidableEq

/-- `derive_priority` (main.py 530-532):
`{"critical":"P1","high":"P2","medium":"P3","low":"P4"}.get((sev or "").lower(),"P3")`. -/
def derive_priority (sev : Option String) : String :=
  match pyLower (sev.getD "") with
  | "critical" => "P1"
  | "high" => "P2"
  | "medium" => "P3"
  | "low" => "P4"
  | _ => "P3"

/-- `fallback_rca` (main.py 537-549): the fallback used by the ingestion
endpoints when the AI call fails — a fixed classification with no keyword
scan. -/
def fallback_rca (sourceType : String) : Rca :=
  { root_cause := some
      (if sourceType == "databricks" then
        "Databricks job/cluster failed. Unable to determine root cause from logs."
      else "ADF pipeline failed. Unable to determine root cause from logs.")
    error_type := some "UnknownError"
    severity := some "Medium"
    priority := some "P3"
    confidence := some "Low"
    auto_heal_possible := some false }

/-- `generate_rca_and_recs` (main.py 551-558).  `ai` is the result of
`call_ai_for_rca` (`none` when the AI call failed or returned unparsable
output).  On success the code runs
`ai.setdefault("priority", derive_priority(ai.get("severity")))`: the
priority is only derived when the AI did not supply one. -/
def generate_rca_and_recs (ai : Option Rca) (sourceType : String) : Rca :=
  match ai with
  | some r => { r with priority := some (r.priority.getD (derive_priority r.severity)) }
  | none => fallback_rca sourceType

/-! ## ai_provider.py — _fallback_rca keyword scan -/

/-- The fields of the `_fallback_rca` dict (ai_provider.py 282-329) that the
claims read. -/
structure FallbackClass where
  error_type : String
  severity : String
  auto_heal_possible : Bool
  priority : String
  confidence : String
deriving DecidableEq

/-- `_fallback_rca` (ai_provider.py 282-329): the deterministic keyword scan
over the lower-cased error text, with its fixed `priority="P2"` and
`confidence="Low"`. -/
def aiProviderFallbackRca (errorMessage : String) : FallbackClass :=
  let el := errorMessage.toList
  if containsCI el ['t','i','m','e','o','u','t'] ||
      containsCI el ['t','i','m','e','d',' ','o','u','t'] then
    { error_type :=
        if containsCI el ['g','a','t','e','w','a','y'] then "GatewayTimeout"
        else "DatabricksTimeoutError"
      severity := "Medium", auto_heal_possible := true
      priority := "P2", confidence := "Low" }
  else if containsCI el ['c','o','n','n','e','c','t','i','o','n'] &&
      containsCI el ['f','a','i','l','e','d'] then
    { error_type := "HttpConnectionFailed", severity := "Medium"
      auto_heal_possible := true, priority := "P2", confidence := "Low" }
  else if containsCI el ['t','h','r','o','t','t','l'] then
    { error_type := "ThrottlingError", severity := "Low"
      auto_heal_possible := true, priority := "P2", confidence := "Low" }
  else if containsCI el ['c','l','u','s','t','e','r'] then
    { error_type := "DatabricksClusterStartFailure", severity := "High"
      auto_heal_possible := true, priority := "P2", confidence := "Low" }
  else if containsCI el ['l','i','b','r','a','r','y'] ||
      containsCI el ['p','a','c','k','a','g','e'] then
    { error_type := "DatabricksLibraryInstallationError", severity := "Medium"
      auto_heal_possible := true, priority := "P2", confidence := "Low" }
  else
    { error_type := "Unknown", severity := "Medium"
      auto_heal_possible := false, priority := "P2", confidence := "Low" }

/-! ## main.py — the ingestion endpoints `azure_monitor` (874-1072) and
`databricks_monitor` (1076-1360)

Both endpoints share one post-extraction control flow: deduplication
pre-check, classification, ticket INSERT with unique-violation handling,
audit logging, Jira, WebSocket broadcast, Slack — and then *nothing*: the
auto-remediation block and the final `return JSONResponse(...)` of both
endpoints are commented out in the source (main.py 1031-1072 and
1317-1360), so the handler falls off the end and FastAPI serves the `None`
return value.  The model starts after authentication and JSON parsing;
payload extraction is summarized by the already-extracted run identifier
(the error text and resource name feed only the elided free-text fields).
The Azure-Blob archive step is an out-of-scope adapter (spec §1) whose
failure is swallowed; it is elided. -/

/-- The columns of a `tickets` row that the claims read.  `runId = none`
models SQL NULL, which the unique index on `run_id` excludes. -/
structure Ticket where
  id : String
  runId : Option String
  severity : String
  priority : String
  errorType : Option String
  status : String
deriving DecidableEq

/-- The HTTP response of one endpoint invocation.  `noContent` is the
fall-off-the-end `None` return (HTTP 200 with a `null` body). -/
inductive Resp where
  | duplicateIgnored (ticketId : String)
  | duplicateRace (ticketId : String)
  | httpError (code : Nat)
  | noContent
deriving DecidableEq

/-- The outbound calls an endpoint invocation performs (besides storage and
the AI call, which are oracle inputs). -/
inductive ExtCall where
  | databricksApi
  | jiraCreate
  | slackPost
  | playbookTrigger
deriving DecidableEq

/-- The oracle for one endpoint invocation: the AI classification result
(`none` = `call_ai_for_rca` failed), the generated ticket id, the tickets
committed by concurrently racing requests between the pre-check read and the
INSERT, whether the INSERT fails for a reason other than the run_id
uniqueness constraint, whether `ITSM_TOOL == "jira"`, the Jira outcome
(`none` = exception, `some none` = returned null, `some (some k)` = key
`k`), and the Slack outcome (`none` = exception, `some b` = returned with
truthiness `b`). -/
structure IngestOracle where
  ai : Option Rca
  freshTid : String
  concurrent : List Ticket
  storageFault : Bool
  itsmJira : Bool
  jiraResult : Option (Option String)
  slackOutcome : Option Bool
deriving DecidableEq

/-- Python truthiness of the extracted run identifier (`if runid:` /
`if run_id:`) — absent or empty skips deduplication. -/
def truthyRun : Option String → Bool
  | none => false
  | some s => !(s == "")

/-- The dedup / ticket lookup `SELECT id, status FROM tickets WHERE
run_id = :run_id ... one=True` (first matching row). -/
def findByRunId (tickets : List Ticket) (runId : Option String) :
    Option Ticket :=
  tickets.find? (fun t => t.runId == runId)

/-- The shared ingestion flow of `azure_monitor` / `databricks_monitor`
(`isAdf` selects the Azure variant, which logs the extra
`Logic App Forwarded` entry and whose Databricks-API enrichment call is
absent).  Returns the HTTP response, the ticket rows after the request (the
racing rows included), the audit entries this request appends in order, and
the outbound calls it makes. -/
def processMonitor (isAdf : Bool) (runId : Option String)
    (sourceType : String) (o : IngestOracle) (tickets0 : List Ticket) :
    Resp × List Ticket × List AuditEntry × List ExtCall :=
  let apiCalls : List ExtCall :=
    if !isAdf && truthyRun runId then [.databricksApi] else []
  let insertPath : Unit → Resp × List Ticket × List AuditEntry × List ExtCall :=
    fun _ =>
      let rca := generate_rca_and_recs o.ai sourceType
      let severity := rca.severity.getD "Medium"
      let priority := rca.priority.getD (derive_priority (some severity))
      let tid := o.freshTid
      let tIns := tickets0 ++ o.concurrent
      if o.storageFault then (.httpError 500, tIns, [], apiCalls)
      else if runId.isSome && tIns.any (fun t => t.runId == runId) then
        match findByRunId tIns runId with
        | some t => (.duplicateRace t.id, tIns, [], apiCalls)
        | none => (.duplicateRace "unknown", tIns, [], apiCalls)
      else
        let newT : Ticket :=
          ⟨tid, runId, severity, priority, rca.error_type, "open"⟩
        let a1 : List AuditEntry :=
          ⟨tid, "Ticket Created", runId, none, none⟩ ::
          (if isAdf then [⟨tid, "Logic App Forwarded", runId, none, none⟩]
           else [])
        let jiraCalls : List ExtCall :=
          if o.itsmJira then [.jiraCreate] else []
        let a2 : List AuditEntry :=
          if o.itsmJira then
            match o.jiraResult with
            | some (some _k) => [⟨tid, "Jira Ticket Created", none, none, none⟩]
            | some none => [⟨tid, "Jira Ticket Failed", none, none, none⟩]
            | none => [⟨tid, "Jira Ticket Failed", none, none, none⟩]
          else []
        let a3 : List AuditEntry :=
          match o.slackOutcome with
          | some true => [⟨tid, "Slack Notification Sent", runId, none, none⟩]
          | some false => []
          | none => [⟨tid, "Slack Notification Failed", runId, none, none⟩]
        (.noContent, tIns ++ [newT], a1 ++ a2 ++ a3,
         apiCalls ++ jiraCalls ++ [.slackPost])
  if truthyRun runId then
    match findByRunId tickets0 runId with
    | some t =>
      (.duplicateIgnored t.id, tickets0,
       [⟨t.id, "Duplicate Run Detected", runId, none, none⟩], apiCalls)
    | none => insertPath ()
  else insertPath ()

/-! ## Spec-side formula and concrete fixtures -/

/-- Modelled from the spec: the backoff-delay formula
`schedule[min(i, len(schedule)-1)]` for 0-based attempt index `i` (spec
§4.5(c) and §8), to be compared with the delay the dispatch engine records. -/
def backoffSpec (s : List Nat) (i : Nat) : Nat :=
  s.getD (min i (s.length - 1)) 0

/-- Fixture: an audit trail holding three `Attempted` entries for run `r1`. -/
def c3Trail : List AuditEntry :=
  [⟨"T1", "Auto-Remediation Attempted", some "r1", some 1, some 10⟩,
   ⟨"T1", "Auto-Remediation Attempted", some "r1", some 2, some 30⟩,
   ⟨"T1", "Auto-Remediation Attempted", some "r1", some 3, some 60⟩]

/-- Fixture: an environment with no playbook URLs configured. -/
def c3Env : RemEnv := { envUrl := fun _ => none, httpResult := none }

/-- Fixture: environment where only `PLAYBOOK_RETRY_PIPELINE` is set and the
playbook POST succeeds with no new run id. -/
def c3wEnv : RemEnv :=
  { envUrl := fun v => if v == "PLAYBOOK_RETRY_PIPELINE" then some "http://pb"
      else none
    httpResult := some (200, none) }

/-- Fixture: a trail with one prior `Attempted` entry for run `r1`. -/
def c4Trail : List AuditEntry :=
  [⟨"T1", "Auto-Remediation Attempted", some "r1", some 1, some 10⟩]

/-- Fixture: environment where only `PLAYBOOK_RETRY_PIPELINE` is set and the
playbook POST fails with a 500. -/
def c4Env : RemEnv :=
  { envUrl := fun v => if v == "PLAYBOOK_RETRY_PIPELINE" then some "http://pb"
      else none
    httpResult := some (500, none) }

/-- Fixture: an AI classification carrying severity Critical but priority P3. -/
def c5Oracle : IngestOracle :=
  { ai := some { severity := some "Critical", priority := some "P3" }
    freshTid := "ADF-T1", concurrent := [], storageFault := false
    itsmJira := false, jiraResult := none, slackOutcome := some false }

/-- Fixture: a successful ingestion whose Jira call returns null and whose
Slack call raises (AI unavailable, so the endpoint fallback classifies). -/
def c9Oracle : IngestOracle :=
  { ai := none, freshTid := "ADF-20250101T000000-abc123", concurrent := []
    storageFault := false, itsmJira := true, jiraResult := some none
    slackOutcome := none }

/-- Fixture: oracle for the dedup scenarios (no race, no faults). -/
def c2Oracle : IngestOracle :=
  { ai := none, freshTid := "ADF-T2", concurrent := [], storageFault := false
    itsmJira := false, jiraResult := none, slackOutcome := some false }

/-- Fixture: oracle where a racing request committed a ticket owning
`run-1` between the pre-check and the INSERT. -/
def c1Oracle : IngestOracle :=
  { ai := none, freshTid := "ADF-T3"
    concurrent := [⟨"ADF-T0", some "run-1", "Medium", "P3", none, "open"⟩]
    storageFault := false, itsmJira := false, jiraResult := none
    slackOutcome := some false }

/-- Fixture: a payload whose `data` field is a string — `payload.get("data",
{}).get("essentials")` then calls `.get` on a `str`. -/
def c8BadPayload : Json := .obj [("data", .str "oops")]

/-- Fixture: a Databricks payload with an unrecognized event type and no
message fields. -/
def c8GenericPayload : List (String × Json) :=
  [("event", .str "workspace_deleted"), ("id", .str "ws-1")]

/-- The actual-cased `ErrorMessage=` envelope text (13 characters). -/
def emLit : List Char :=
  ['E','r','r','o','r','M','e','s','s','a','g','e','=']

/-- The actual-cased `Forwarded to RCA system` marker text. -/
def fwdLit : List Char :=
  ['F','o','r','w','a','r','d','e','d',' ','t','o',' ','R','C','A',' ',
   's','y','s','t','e','m']

/-- Fixture: an inner error message wrapped in spaces and single quotes. -/
def c7X : List Char :=
  [' ', Char.ofNat 39] ++ "Connection refused".toList ++ [Char.ofNat 39, ' ']

/-- Fixture: trailing payload text after the forwarding marker. -/
def c7Suf : List Char := " extra".toList

/-! ## Helper lemmas -/

theorem countAttempts_append (r : String) (a b : List AuditEntry) :
    countAttempts r (a ++ b) = countAttempts r a + countAttempts r b := by
  simp [countAttempts, List.filter_append]

theorem countAttempts_cons_attempted (r tid : String) (att bo : Option Nat)
    (rest : List AuditEntry) :
    countAttempts r
      (⟨tid, "Auto-Remediation Attempted", some r, att, bo⟩ :: rest) =
      countAttempts r rest + 1 := by
  simp [countAttempts, List.filter_cons]

theorem countAttempts_cons_other (r : String) (e : AuditEntry)
    (h : e.action ≠ "Auto-Remediation Attempted") (rest : List AuditEntry) :
    countAttempts r (e :: rest) = countAttempts r rest := by
  simp only [countAttempts, List.filter_cons]
  have : (e.action == "Auto-Remediation Attempted") = false :=
    beq_eq_false_iff_ne.mpr h
  simp [this]

/-- C5 counterexample: with the AI returning severity `Critical` together
with priority `P3`, the created ticket keeps priority `P3`, while the fixed
severity mapping demands `P1` — `generate_rca_and_recs` uses `setdefault`,
so an AI-supplied priority is *not* overridden. -/
theorem C5_counterexample_ai_priority_kept :
    (processMonitor true (some "run-5") "adf" c5Oracle []).2.1 =
      [⟨"ADF-T1", some "run-5", "Critical", "P3", none, "open"⟩] ∧
    derive_priority (some "Critical") = "P1" ∧ ("P3" : String) ≠ "P1" := by
  refine ⟨rfl, by decide, by decide⟩

/-- C5: the priority rule the code actually implements.  An AI-supplied
priority is kept verbatim; only when the AI omits it is
`derive_priority` applied to the severity (Critical→P1, High→P2, Medium→P3,
Low→P4, anything else→P3, case-insensitively); the endpoint fallback always
carries priority `P3` with severity `Medium`, consistent with the mapping. -/
theorem C5_priority_rule (ai : Rca) (srcT : String) :
    (generate_rca_and_recs (some ai) srcT).priority =
      some (ai.priority.getD (derive_priority ai.severity)) ∧
    (generate_rca_and_recs none srcT).priority = some "P3" ∧
    (generate_rca_and_recs none srcT).severity = some "Medium" ∧
    derive_priority (some "Critical") = "P1" ∧
    derive_priority (some "High") = "P2" ∧
    derive_priority (some "MEDIUM") = "P3" ∧
    derive_priority (some "low") = "P4" ∧
    derive_priority (some "Unknown") = "P3" ∧
    derive_priority none = "P3" := by
  exact ⟨rfl, rfl, rfl, by decide, by decide, by decide, by decide,
    by decide, by decide⟩

/-- C9: a successful insert ends with the handler falling off the end — the
response is the `None` body, not a `Ticket Created` payload with the ticket
id — while the ticket row itself is created and survives the failing Jira
and Slack steps (their failures only append audit entries). -/
theorem C9_success_response_is_null :
    processMonitor true (some "run-9") "adf" c9Oracle [] =
      (.noContent,
       [⟨"ADF-20250101T000000-abc123", some "run-9", "Medium", "P3",
         some "UnknownError", "open"⟩],
       [⟨"ADF-20250101T000000-abc123", "Ticket Created", some "run-9",
         none, none⟩,
        ⟨"ADF-20250101T000000-abc123", "Logic App Forwarded", some "run-9",
         none, none⟩,
        ⟨"ADF-20250101T000000-abc123", "Jira Ticket Failed", none,
         none, none⟩,
        ⟨"ADF-20250101T000000-abc123", "Slack Notification Failed",
         some "run-9", none, none⟩],
       [.jiraCreate, .slackPost]) := by
  rfl

/-- C6 counterexample: the text `request was throttled` hits the `throttl`
keyword branch of `_fallback_rca`, which assigns severity `Low`, not the
`Medium` the claim states for every matched category (the `cluster` branch
likewise assigns `High`). -/
theorem C6_counterexample_throttle_severity :
    (aiProviderFallbackRca "request was throttled").error_type =
      "ThrottlingError" ∧
    (aiProviderFallbackRca "request was throttled").severity = "Low" ∧
    ("Low" : String) ≠ "Medium" := by
  exact ⟨rfl, rfl, by decide⟩

/-- C6: the keyword scan of `_fallback_rca`, as implemented — the priority
order of the substring checks is as the claim states and every matched
category sets `auto_heal_possible := true`, but the severities are `Medium`
for the timeout, connection+failed and library/package categories, `Low`
for throttling and `High` for cluster; unmatched text yields `Unknown` with
`auto_heal_possible := false` and severity `Medium`. -/
theorem C6_fallback_scan (msg : String) :
    ((containsCI msg.toList ['t','i','m','e','o','u','t'] ||
        containsCI msg.toList ['t','i','m','e','d',' ','o','u','t']) = true →
      (aiProviderFallbackRca msg).severity = "Medium" ∧
      (aiProviderFallbackRca msg).auto_heal_possible = true) ∧
    ((containsCI msg.toList ['t','i','m','e','o','u','t'] ||
        containsCI msg.toList ['t','i','m','e','d',' ','o','u','t']) = false →
      (containsCI msg.toList ['c','o','n','n','e','c','t','i','o','n'] &&
        containsCI msg.toList ['f','a','i','l','e','d']) = true →
      aiProviderFallbackRca msg =
        ⟨"HttpConnectionFailed", "Medium", true, "P2", "Low"⟩) ∧
    ((containsCI msg.toList ['t','i','m','e','o','u','t'] ||
        containsCI msg.toList ['t','i','m','e','d',' ','o','u','t']) = false →
      (containsCI msg.toList ['c','o','n','n','e','c','t','i','o','n'] &&
        containsCI msg.toList ['f','a','i','l','e','d']) = false →
      containsCI msg.toList ['t','h','r','o','t','t','l'] = true →
      aiProviderFallbackRca msg =
        ⟨"ThrottlingError", "Low", true, "P2", "Low"⟩) ∧
    ((containsCI msg.toList ['t','i','m','e','o','u','t'] ||
        containsCI msg.toList ['t','i','m','e','d',' ','o','u','t']) = false →
      (containsCI msg.toList ['c','o','n','n','e','c','t','i','o','n'] &&
        containsCI msg.toList ['f','a','i','l','e','d']) = false →
      containsCI msg.toList ['t','h','r','o','t','t','l'] = false →
      containsCI msg.toList ['c','l','u','s','t','e','r'] = true →
      aiProviderFallbackRca msg =
        ⟨"DatabricksClusterStartFailure", "High", true, "P2", "Low"⟩) ∧
    ((containsCI msg.toList ['t','i','m','e','o','u','t'] ||
        containsCI msg.toList ['t','i','m','e','d',' ','o','u','t']) = false →
      (containsCI msg.toList ['c','o','n','n','e','c','t','i','o','n'] &&
        containsCI msg.toList ['f','a','i','l','e','d']) = false →
      containsCI msg.toList ['t','h','r','o','t','t','l'] = false →
      containsCI msg.toList ['c','l','u','s','t','e','r'] = false →
      (containsCI msg.toList ['l','i','b','r','a','r','y'] ||
        containsCI msg.toList ['p','a','c','k','a','g','e']) = true →
      aiProviderFallbackRca msg =
        ⟨"DatabricksLibraryInstallationError", "Medium", true, "P2", "Low"⟩) ∧
    ((containsCI msg.toList ['t','i','m','e','o','u','t'] ||
        containsCI msg.toList ['t','i','m','e','d',' ','o','u','t']) = false →
      (containsCI msg.toList ['c','o','n','n','e','c','t','i','o','n'] &&
        containsCI msg.toList ['f','a','i','l','e','d']) = false →
      containsCI msg.toList ['t','h','r','o','t','t','l'] = false →
      containsCI msg.toList ['c','l','u','s','t','e','r'] = false →
      (containsCI msg.toList ['l','i','b','r','a','r','y'] ||
        containsCI msg.toList ['p','a','c','k','a','g','e']) = false →
      aiProviderFallbackRca msg = ⟨"Unknown", "Medium", false, "P2", "Low"⟩) := by
  refine ⟨?_, ?_, ?_, ?_, ?_, ?_⟩
  · intro h1
    simp only [aiProviderFallbackRca, h1]
    constructor <;> rfl
  · intro h1 h2
    simp only [aiProviderFallbackRca, h1, h2]
    rfl
  · intro h1 h2 h3
    simp only [aiProviderFallbackRca, h1, h2, h3]
    rfl
  · intro h1 h2 h3 h4
    simp only [aiProviderFallbackRca, h1, h2, h3, h4]
    rfl
  · intro h1 h2 h3 h4 h5
    simp only [aiProviderFallbackRca, h1, h2, h3, h4, h5]
    rfl
  · intro h1 h2 h3 h4 h5
    simp only [aiProviderFallbackRca, h1, h2, h3, h4, h5]
    rfl

/-- C6 witness: the scan theorem applied to a concrete library error. -/
theorem C6_fallback_scan_witness :
    aiProviderFallbackRca "pip failed installing package pandas" =
      ⟨"DatabricksLibraryInstallationError", "Medium", true, "P2", "Low"⟩ :=
  (C6_fallback_scan "pip failed installing package pandas").2.2.2.2.1
    (by decide) (by decide) (by decide) (by decide) (by decide)

/-- C3 counterexample: for the eligible kind `GatewayTimeout`
(max_retries = 3) with three counted `Attempted` entries for run `r1`, an
evaluation in an environment with no playbook URL configured records an
`Auto-Remediation Skipped` entry and returns False *before* the retry-count
check — no `Auto-Remediation Max Retries Reached` entry is recorded, contrary
to the claim. -/
theorem C3_counterexample_unconfigured_playbook :
    lookupError "GatewayTimeout" = some ⟨3, [10, 30, 60], "retry_pipeline"⟩ ∧
    3 ≤ countAttempts "r1" c3Trail ∧
    attempt_auto_remediation "T1" "GatewayTimeout" (some "r1") c3Trail c3Env =
      (false, [⟨"T1", "Auto-Remediation Skipped", some "r1", none, none⟩]) := by
  exact ⟨by decide, by decide, rfl⟩

/-- C3: the retry ceiling, as implemented — *provided the playbook URL for
the kind's playbook type is configured*: when the counted `Attempted`
entries for the run id reach `max_retries`, the evaluation returns False and
appends exactly one `Auto-Remediation Max Retries Reached` entry (and no
`Attempted` entry); and any single evaluation keeps the `Attempted` count
for that run id at or below `max_retries`. -/
theorem countAttempts_nil (r : String) : countAttempts r [] = 0 := rfl

/-- C3: the retry ceiling, as implemented — for a *present* run identifier
(a nonempty string: the code's `if run_id:` treats the empty string as
absence, which disables retry-count tracking) and *provided the playbook URL
for the kind's playbook type is configured*: when the counted `Attempted`
entries for the run id reach `max_retries`, the evaluation returns False and
appends exactly one `Auto-Remediation Max Retries Reached` entry (and no
`Attempted` entry); and any single evaluation keeps the `Attempted` count
for that run id at or below `max_retries`. -/
theorem C3_retry_ceiling (tid k r v u : String) (trail : List AuditEntry)
    (env : RemEnv) (cfg : RemConfig)
    (hr : r ≠ "")
    (hk : lookupError k = some cfg)
    (hv : playbookEnvVar cfg.playbook_type = some v)
    (hu : env.envUrl v = some u) :
    (cfg.max_retries ≤ countAttempts r trail →
      attempt_auto_remediation tid k (some r) trail env =
        (false, [⟨tid, "Auto-Remediation Max Retries Reached", some r,
                  none, none⟩])) ∧
    (countAttempts r trail ≤ cfg.max_retries →
      countAttempts r
        (trail ++ (attempt_auto_remediation tid k (some r) trail env).2) ≤
        cfg.max_retries) := by
  have hbe : (r == "") = false := beq_eq_false_iff_ne.mpr hr
  constructor
  · intro h
    simp only [attempt_auto_remediation, hk, hv, hu, hbe,
      Bool.false_eq_true, if_false, if_pos h]
  · intro h
    by_cases hge : cfg.max_retries ≤ countAttempts r trail
    · simp only [attempt_auto_remediation, hk, hv, hu, hbe,
        Bool.false_eq_true, if_false, if_pos hge]
      rw [countAttempts_append,
        countAttempts_cons_other r
          ⟨tid, "Auto-Remediation Max Retries Reached", some r, none, none⟩
          (by decide : ("Auto-Remediation Max Retries Reached" : String) ≠
            "Auto-Remediation Attempted") [],
        countAttempts_nil]
      omega
    · have hlt : countAttempts r trail < cfg.max_retries :=
        Nat.lt_of_not_le hge
      simp only [attempt_auto_remediation, hk, hv, hu, hbe,
        Bool.false_eq_true, if_false, if_neg hge]
      rcases henv : env.httpResult with _ | ⟨code, nrid⟩
      · simp only [henv]
        rw [countAttempts_append, countAttempts_cons_attempted,
          countAttempts_cons_other r
            ⟨tid, "Auto-Remediation Failed", some r, none, none⟩
            (by decide : ("Auto-Remediation Failed" : String) ≠
              "Auto-Remediation Attempted") [],
          countAttempts_nil]
        omega
      · simp only [henv]
        by_cases hc : (code == 200) = true
        · rw [if_pos hc, countAttempts_append, countAttempts_cons_attempted,
            countAttempts_cons_other r
              ⟨tid, "Auto-Remediation Succeeded", nrid <|> some r, none,
               none⟩
              (by decide : ("Auto-Remediation Succeeded" : String) ≠
                "Auto-Remediation Attempted") [],
            countAttempts_nil]
          omega
        · rw [if_neg hc, countAttempts_append, countAttempts_cons_attempted,
            countAttempts_cons_other r
              ⟨tid, "Auto-Remediation Failed", some r, none, none⟩
              (by decide : ("Auto-Remediation Failed" : String) ≠
                "Auto-Remediation Attempted") [],
            countAttempts_nil]
          omega

/-- C3 witness: the ceiling theorem at the `ThrottlingError` configuration
with three prior attempts, a configured playbook URL and a failing POST. -/
theorem C3_retry_ceiling_witness :
    attempt_auto_remediation "T1" "ThrottlingError" (some "r1")
        (c3Trail ++ c3Trail) c3wEnv =
      (false, [⟨"T1", "Auto-Remediation Max Retries Reached", some "r1",
                none, none⟩]) :=
  (C3_retry_ceiling "T1" "ThrottlingError" "r1" "PLAYBOOK_RETRY_PIPELINE"
    "http://pb" (c3Trail ++ c3Trail) c3wEnv
    ⟨5, [30, 60, 120, 300, 600], "retry_pipeline"⟩
    (by decide) (by decide) (by decide) (by decide)).1 (by decide)

theorem getD_length_sub_one_eq_getLastD :
    ∀ (l : List Nat), l ≠ [] → l.getD (l.length - 1) 0 = l.getLastD 0
  | [], h => absurd rfl h
  | [_a], _ => rfl
  | a :: b :: t, _ => by
    have ih := getD_length_sub_one_eq_getLastD (b :: t) (by simp)
    simp only [List.length_cons, Nat.add_sub_cancel] at ih ⊢
    rw [List.getD_cons_succ, ih, List.getLastD_cons 0 b t,
      List.getLastD_cons 0 a (b :: t), List.getLastD_cons a b t]

/-- C4: when an evaluation with a present run identifier (a nonempty
string: the code's `if run_id:` treats the empty string as absence, which
disables ledger-based attempt counting) proceeds to an attempt (eligible
kind, configured playbook URL, counted attempts `i` below `max_retries`),
the recorded backoff delay is exactly the spec formula
`schedule[min(i, len(schedule)-1)]` — and once the schedule is exhausted
(`len(schedule) ≤ i`) that formula is the last configured delay. -/
theorem C4_backoff_delay (tid k r v u : String) (trail : List AuditEntry)
    (env : RemEnv) (cfg : RemConfig)
    (hr : r ≠ "")
    (hk : lookupError k = some cfg)
    (hv : playbookEnvVar cfg.playbook_type = some v)
    (hu : env.envUrl v = some u)
    (hlt : countAttempts r trail < cfg.max_retries) :
    (∃ rest, (attempt_auto_remediation tid k (some r) trail env).2 =
      ⟨tid, "Auto-Remediation Attempted", some r,
       some (countAttempts r trail + 1),
       some (backoffSpec cfg.backoff_seconds (countAttempts r trail))⟩ ::
      rest) ∧
    (cfg.backoff_seconds ≠ [] →
      cfg.backoff_seconds.length ≤ countAttempts r trail →
      backoffSpec cfg.backoff_seconds (countAttempts r trail) =
        cfg.backoff_seconds.getLastD 0) := by
  have hbe : (r == "") = false := beq_eq_false_iff_ne.mpr hr
  constructor
  · have hge : ¬ cfg.max_retries ≤ countAttempts r trail :=
      Nat.not_le_of_lt hlt
    rcases henv : env.httpResult with _ | ⟨code, nrid⟩
    · simp only [attempt_auto_remediation, hk, hv, hu, hbe,
        Bool.false_eq_true, if_false, if_neg hge, henv, backoffSpec]
      exact ⟨_, rfl⟩
    · simp only [attempt_auto_remediation, hk, hv, hu, hbe,
        Bool.false_eq_true, if_false, if_neg hge, henv, backoffSpec]
      by_cases hc : (code == 200) = true
      · rw [if_pos hc]; exact ⟨_, rfl⟩
      · rw [if_neg hc]; exact ⟨_, rfl⟩
  · intro hne hlen
    have hmin : min (countAttempts r trail) (cfg.backoff_seconds.length - 1) =
        cfg.backoff_seconds.length - 1 := by omega
    rw [backoffSpec, hmin, getD_length_sub_one_eq_getLastD _ hne]

/-- C4 witness: the delay theorem at `GatewayTimeout` with one prior
attempt; the recorded delay is the second schedule entry, 30 seconds. -/
theorem C4_backoff_delay_witness :
    (∃ rest,
      (attempt_auto_remediation "T1" "GatewayTimeout" (some "r1") c4Trail
        c4Env).2 =
      ⟨"T1", "Auto-Remediation Attempted", some "r1",
       some (countAttempts "r1" c4Trail + 1),
       some (backoffSpec [10, 30, 60] (countAttempts "r1" c4Trail))⟩ ::
      rest) ∧
    backoffSpec [10, 30, 60] (countAttempts "r1" c4Trail) = 30 := by
  refine ⟨(C4_backoff_delay "T1" "GatewayTimeout" "r1"
    "PLAYBOOK_RETRY_PIPELINE" "http://pb" c4Trail c4Env
    ⟨3, [10, 30, 60], "retry_pipeline"⟩ (by decide) (by decide) (by decide)
    (by decide) (by decide)).1, by decide⟩

/-- C2: when a run identifier already owns a ticket, a second delivery is
short-circuited by the pre-check: the endpoint responds `duplicate_ignored`
with the first (owning) ticket's id, appends exactly one
`Duplicate Run Detected` audit entry for that ticket, and inserts no second
ticket row. -/
theorem C2_duplicate_ignored (isAdf : Bool) (r srcT : String)
    (o : IngestOracle) (tickets0 : List Ticket) (t : Ticket)
    (hr : r ≠ "")
    (hfind : findByRunId tickets0 (some r) = some t) :
    processMonitor isAdf (some r) srcT o tickets0 =
      (.duplicateIgnored t.id, tickets0,
       [⟨t.id, "Duplicate Run Detected", some r, none, none⟩],
       if !isAdf then [.databricksApi] else []) := by
  have hbe : (r == "") = false := beq_eq_false_iff_ne.mpr hr
  simp only [processMonitor, truthyRun, hbe, Bool.not_false, if_true,
    Bool.and_true, hfind]

/-- C2 witness: the dedup theorem at a concrete second delivery for
`run-1`, owned by ticket `ADF-T0`. -/
theorem C2_duplicate_ignored_witness :
    processMonitor true (some "run-1") "adf" c2Oracle
        [⟨"ADF-T0", some "run-1", "Medium", "P3", none, "open"⟩] =
      (.duplicateIgnored "ADF-T0",
       [⟨"ADF-T0", some "run-1", "Medium", "P3", none, "open"⟩],
       [⟨"ADF-T0", "Duplicate Run Detected", some "run-1", none, none⟩],
       []) :=
  C2_duplicate_ignored true "run-1" "adf" c2Oracle
    [⟨"ADF-T0", some "run-1", "Medium", "P3", none, "open"⟩]
    ⟨"ADF-T0", some "run-1", "Medium", "P3", none, "open"⟩
    (by decide) (by decide)

/-- C1: the INSERT failure paths.  A run_id uniqueness violation (a racing
request committed the owning ticket after the pre-check) makes the endpoint
re-query the winning ticket and answer `duplicate_race_condition` with that
ticket's id instead of propagating the storage error, recording no ticket
and no audit entry of its own; any other insert failure is answered with an
HTTP 500 and records nothing. -/
theorem C1_unique_violation_requery (isAdf : Bool) (r srcT : String)
    (o : IngestOracle) (tickets0 : List Ticket) (t : Ticket)
    (hpre : r = "" ∨ findByRunId tickets0 (some r) = none) :
    (o.storageFault = false →
      findByRunId (tickets0 ++ o.concurrent) (some r) = some t →
      processMonitor isAdf (some r) srcT o tickets0 =
        (.duplicateRace t.id, tickets0 ++ o.concurrent, [],
         if !isAdf && !(r == "") then [.databricksApi] else [])) ∧
    (o.storageFault = true →
      processMonitor isAdf (some r) srcT o tickets0 =
        (.httpError 500, tickets0 ++ o.concurrent, [],
         if !isAdf && !(r == "") then [.databricksApi] else [])) := by
  constructor
  · intro hsf hwin
    have hwin' : (tickets0 ++ o.concurrent).find?
        (fun tk => tk.runId == some r) = some t := hwin
    have hp := List.find?_some hwin'
    have hany : (tickets0 ++ o.concurrent).any
        (fun tk => tk.runId == some r) = true :=
      List.any_eq_true.mpr ⟨t, List.mem_of_find?_eq_some hwin', hp⟩
    by_cases hre : r = ""
    · subst hre
      simp only [processMonitor, truthyRun, findByRunId, hsf, hwin', hany]
      simp
    · have hbe : (r == "") = false := beq_eq_false_iff_ne.mpr hre
      have hnone : tickets0.find? (fun tk => tk.runId == some r) = none := by
        rcases hpre with h | h
        · exact absurd h hre
        · exact h
      simp only [processMonitor, truthyRun, findByRunId, hbe, hsf, hnone,
        hwin', hany]
      simp
  · intro hsf
    by_cases hre : r = ""
    · subst hre
      simp only [processMonitor, truthyRun, findByRunId, hsf]
      simp
    · have hbe : (r == "") = false := beq_eq_false_iff_ne.mpr hre
      have hnone : tickets0.find? (fun tk => tk.runId == some r) = none := by
        rcases hpre with h | h
        · exact absurd h hre
        · exact h
      simp only [processMonitor, truthyRun, findByRunId, hbe, hsf, hnone]
      simp

/-- C1 witness: the race theorem at a concrete event for `run-1`, with an
empty pre-check snapshot and a racing ticket `ADF-T0` committed before the
INSERT. -/
theorem C1_unique_violation_requery_witness :
    processMonitor true (some "run-1") "adf" c1Oracle [] =
      (.duplicateRace "ADF-T0",
       [⟨"ADF-T0", some "run-1", "Medium", "P3", none, "open"⟩], [],
       if !true && !("run-1" == "") then [.databricksApi] else []) :=
  (C1_unique_violation_requery true "run-1" "adf" c1Oracle []
    ⟨"ADF-T0", some "run-1", "Medium", "P3", none, "open"⟩
    (Or.inr (by decide))).1 (by decide) (by decide)

/-- C10: the remediation dispatch engine is unreachable from the ingestion
paths.  The auto-remediation blocks of both endpoints are commented out in
the source (main.py 1031-1072 and 1317-1360) and `main.py` never imports
`attempt_auto_remediation`, so no invocation of either endpoint — for any
payload, oracle, configuration or store state, `AUTO_REMEDIATION_ENABLED`
included — triggers a playbook call or appends an
`Auto-Remediation Attempted` audit entry. -/
theorem C10_no_remediation_from_ingestion (isAdf : Bool)
    (runId : Option String) (srcT : String) (o : IngestOracle)
    (tickets0 : List Ticket) :
    ExtCall.playbookTrigger ∉
      (processMonitor isAdf runId srcT o tickets0).2.2.2 ∧
    ∀ e ∈ (processMonitor isAdf runId srcT o tickets0).2.2.1,
      e.action ≠ "Auto-Remediation Attempted" := by
  simp only [processMonitor]
  repeat' split
  all_goals simp

theorem isPrefixCI_append (pat t r : List Char)
    (h : isPrefixCI pat t = true) : isPrefixCI pat (t ++ r) = true := by
  induction pat generalizing t with
  | nil => rfl
  | cons a as ih =>
    cases t with
    | nil => exact absurd h Bool.false_ne_true
    | cons b bs =>
      rcases (Bool.and_eq_true _ _).mp h with ⟨h1, h2⟩
      simp [List.cons_append, isPrefixCI, h1, ih bs h2]

theorem isPrefixCI_ge_length (pat s : List Char) (i : Nat)
    (hpat : pat ≠ []) (hi : s.length ≤ i) :
    isPrefixCI pat (s.drop i) = false := by
  rw [List.drop_eq_nil_of_le hi]
  cases pat with
  | nil => exact absurd rfl hpat
  | cons a as => rfl

theorem containsCI_of_prefix_at (s pat : List Char) (n : Nat)
    (h : isPrefixCI pat (s.drop n) = true) : containsCI s pat = true := by
  induction s generalizing n with
  | nil =>
    rw [List.drop_nil] at h
    cases pat with
    | nil => rfl
    | cons a as => exact absurd h Bool.false_ne_true
  | cons c rest ih =>
    cases n with
    | zero =>
      rw [List.drop_zero] at h
      simp [containsCI, h]
    | succ m =>
      rw [List.drop_succ_cons] at h
      simp [containsCI, ih m h]

theorem firstMarker_eq_of (s : List Char) (n : Nat)
    (hfree : ∀ i, i < n → isPrefixCI emPat (s.drop i) = false ∧
      isPrefixCI msgPat (s.drop i) = false)
    (hem : isPrefixCI emPat (s.drop n) = true) :
    firstMarker s = some (n, 13) := by
  induction s generalizing n with
  | nil =>
    rw [List.drop_nil] at hem
    exact absurd hem (by decide)
  | cons c rest ih =>
    cases n with
    | zero =>
      rw [List.drop_zero] at hem
      simp [firstMarker, hem]
    | succ m =>
      have h0 := hfree 0 (Nat.succ_pos m)
      rw [List.drop_zero] at h0
      rw [List.drop_succ_cons] at hem
      have hfree' : ∀ i, i < m → isPrefixCI emPat (rest.drop i) = false ∧
          isPrefixCI msgPat (rest.drop i) = false := by
        intro i hi
        have := hfree (i + 1) (Nat.succ_lt_succ hi)
        rwa [List.drop_succ_cons] at this
      simp [firstMarker, h0.1, h0.2, ih m hfree' hem]

theorem lastFwd_eq_none (s : List Char)
    (h : ∀ i, isPrefixCI fwdPat (s.drop i) = false) : lastFwd s = none := by
  induction s with
  | nil => rfl
  | cons c rest ih =>
    have h0 := h 0
    rw [List.drop_zero] at h0
    have h' : ∀ i, isPrefixCI fwdPat (rest.drop i) = false := by
      intro i
      have := h (i + 1)
      rwa [List.drop_succ_cons] at this
    simp [lastFwd, ih h', h0]

theorem lastFwd_eq_some (s : List Char) (n : Nat)
    (h : isPrefixCI fwdPat (s.drop n) = true)
    (hafter : ∀ i, n < i → isPrefixCI fwdPat (s.drop i) = false) :
    lastFwd s = some n := by
  induction s generalizing n with
  | nil =>
    rw [List.drop_nil] at h
    exact absurd h (by decide)
  | cons c rest ih =>
    cases n with
    | zero =>
      have hnone : lastFwd rest = none := by
        apply lastFwd_eq_none
        intro i
        have := hafter (i + 1) (Nat.succ_pos i)
        rwa [List.drop_succ_cons] at this
      rw [List.drop_zero] at h
      simp [lastFwd, hnone, h]
    | succ m =>
      rw [List.drop_succ_cons] at h
      have hafter' : ∀ i, m < i → isPrefixCI fwdPat (rest.drop i) = false := by
        intro i hi
        have := hafter (i + 1) (Nat.succ_lt_succ hi)
        rwa [List.drop_succ_cons] at this
      simp [lastFwd, ih m h hafter']

/-- C7: the envelope round-trip.  For any text of the shape
`p ++ "ErrorMessage=" ++ x ++ "Forwarded to RCA system" ++ suf` in which no
`ErrorMessage=`/`Message=` marker starts before position `|p|` and no
forwarding marker starts after the canonical one, the Logic-App cleanup
yields exactly `x` stripped of surrounding whitespace and then of
surrounding single quotes. -/
theorem C7_envelope_roundtrip (p x suf : List Char)
    (hx : x ≠ [])
    (hfree : ∀ i, i < p.length →
      isPrefixCI emPat ((p ++ emLit ++ x ++ fwdLit ++ suf).drop i) = false ∧
      isPrefixCI msgPat ((p ++ emLit ++ x ++ fwdLit ++ suf).drop i) = false)
    (hlast : ∀ i, i ≤ (p ++ emLit ++ x ++ fwdLit ++ suf).length →
      p.length + 13 + x.length < i →
      isPrefixCI fwdPat ((p ++ emLit ++ x ++ fwdLit ++ suf).drop i) =
        false) :
    cleanLogicApp (p ++ emLit ++ x ++ fwdLit ++ suf) =
      pyStripQuote (pyStrip x) := by
  have h13 : emLit.length = 13 := rfl
  have hassoc1 : p ++ emLit ++ x ++ fwdLit ++ suf =
      p ++ (emLit ++ (x ++ (fwdLit ++ suf))) := by
    simp [List.append_assoc]
  have hdrop1 : (p ++ emLit ++ x ++ fwdLit ++ suf).drop p.length =
      emLit ++ (x ++ (fwdLit ++ suf)) := by
    rw [hassoc1]
    exact List.drop_left p _
  have hem : isPrefixCI emPat
      ((p ++ emLit ++ x ++ fwdLit ++ suf).drop p.length) = true := by
    rw [hdrop1]
    exact isPrefixCI_append _ _ _ (by decide)
  have hfm : firstMarker (p ++ emLit ++ x ++ fwdLit ++ suf) =
      some (p.length, 13) := firstMarker_eq_of _ _ hfree hem
  have heq2 : p ++ emLit ++ x ++ fwdLit ++ suf =
      ((p ++ emLit ++ x) ++ (fwdLit ++ suf)) := by
    simp [List.append_assoc]
  have hlen2 : (p ++ emLit ++ x).length = p.length + 13 + x.length := by
    simp only [List.length_append]
    omega
  have hdrop2 : (p ++ emLit ++ x ++ fwdLit ++ suf).drop
      (p.length + 13 + x.length) = fwdLit ++ suf := by
    rw [heq2, ← hlen2, List.drop_left]
  have hfw : isPrefixCI fwdPat
      ((p ++ emLit ++ x ++ fwdLit ++ suf).drop
        (p.length + 13 + x.length)) = true := by
    rw [hdrop2]
    exact isPrefixCI_append _ _ _ (by decide)
  have hlast' : ∀ i, p.length + 13 + x.length < i →
      isPrefixCI fwdPat ((p ++ emLit ++ x ++ fwdLit ++ suf).drop i) =
        false := by
    intro i hi
    by_cases hle : i ≤ (p ++ emLit ++ x ++ fwdLit ++ suf).length
    · exact hlast i hle hi
    · exact isPrefixCI_ge_length _ _ _ (by decide)
        (Nat.le_of_lt (Nat.lt_of_not_le hle))
  have hlf : lastFwd (p ++ emLit ++ x ++ fwdLit ++ suf) =
      some (p.length + 13 + x.length) := lastFwd_eq_some _ _ hfw hlast'
  have hcont : containsCI (p ++ emLit ++ x ++ fwdLit ++ suf) fwdPat =
      true := containsCI_of_prefix_at _ _ _ hfw
  have hxlen : 0 < x.length := List.length_pos.mpr hx
  have heq3 : p ++ emLit ++ x ++ fwdLit ++ suf =
      ((p ++ emLit) ++ (x ++ (fwdLit ++ suf))) := by
    simp [List.append_assoc]
  have hlen3 : (p ++ emLit).length = p.length + 13 := by
    simp only [List.length_append]
    omega
  have hdrop3 : (p ++ emLit ++ x ++ fwdLit ++ suf).drop (p.length + 13) =
      x ++ (fwdLit ++ suf) := by
    rw [heq3, ← hlen3, List.drop_left]
  simp only [cleanLogicApp, hcont, if_true, hfm, hlf]
  rw [if_pos (by omega : p.length + 13 < p.length + 13 + x.length)]
  rw [hdrop3]
  have hsub : p.length + 13 + x.length - (p.length + 13) = x.length := by
    omega
  rw [hsub, List.take_left]

/-- C7 witness: the round-trip theorem at a concrete forwarded alert whose
inner message is quoted and padded. -/
theorem C7_envelope_roundtrip_witness :
    cleanLogicApp ([] ++ emLit ++ c7X ++ fwdLit ++ c7Suf) =
      "Connection refused".toList :=
  (C7_envelope_roundtrip [] c7X c7Suf (by decide) (by decide)
    (by decide)).trans (by decide)

/-- C8 counterexample: the normalizer *can* raise — on a payload whose
`data` field is a string, `AzureDataFactoryExtractor.extract` raises
`AttributeError` in `payload.get("data", {}).get("essentials")` — and an
unrecognized source tag makes `get_extractor` return `None`, not a generic
extractor. -/
theorem C8_counterexample_extractor_raises :
    adfExtract c8BadPayload = .error .attributeError ∧
    get_extractor "jenkins" = none := by
  exact ⟨rfl, rfl⟩

/-- C8: the part of the claim the code satisfies — a Databricks payload
whose event type matches none of the job/cluster/library dispatch tests and
which carries no truthy `message`/`error_message` field is extracted by the
generic fallback without raising, and its error text is `str(payload)`: the
full original payload is preserved. -/
theorem C8_generic_preserves_payload (fs : List (String × Json))
    (evt : String)
    (hev : lookupField fs "event" = some (Json.str evt))
    (hevne : (evt == "") = false)
    (hjob : containsCI evt.toList ['j','o','b'] = false)
    (hrun : fs.any (fun kv => kv.1 == "run") = false)
    (hclu : containsCI evt.toList ['c','l','u','s','t','e','r'] = false)
    (hcluk : fs.any (fun kv => kv.1 == "cluster") = false)
    (hlib : containsCI evt.toList ['l','i','b','r','a','r','y'] = false)
    (hmsg : truthy ((lookupField fs "message").getD .null) = false)
    (hemsg : truthy ((lookupField fs "error_message").getD .null) = false) :
    ∃ res, dbxExtract (Json.obj fs) = .ok res ∧
      res.errorMessage = .reprOf (Json.obj fs) ∧
      res.eventType = evt := by
  have htev : truthy (Json.str evt) = true := by
    simp [truthy, hevne]
  by_cases h1 : truthy ((lookupField fs "name").getD .null) = true <;>
  by_cases h2 : truthy ((lookupField fs "resource_name").getD .null) =
    true <;>
  by_cases h3 : truthy ((lookupField fs "id").getD .null) = true <;>
  by_cases h4 : truthy ((lookupField fs "resource_id").getD .null) =
    true <;>
  · simp only [dbxExtract, dbxExtractGeneric, pyGetOr, pyGet, pyGetD,
      pyHasKey, eTextOr, bind, Except.bind, pure, Except.pure, hev,
      Option.getD_some, htev, hjob, hrun, hclu, hcluk, hlib, hmsg, hemsg,
      h1, h2, h3, h4, if_true, Bool.or_false, Bool.false_or, Bool.or_self,
      Bool.false_eq_true, if_false, ite_true, ite_false]
    try simp only [Bool.false_eq_true, if_false, if_true]
    exact ⟨_, rfl, rfl, rfl⟩

/-- C8 witness: the generic-extraction theorem at a concrete payload with
the unrecognized event type `workspace_deleted`. -/
theorem C8_generic_preserves_payload_witness :
    ∃ res, dbxExtract (Json.obj c8GenericPayload) = .ok res ∧
      res.errorMessage = .reprOf (Json.obj c8GenericPayload) ∧
      res.eventType = "workspace_deleted" :=
  C8_generic_preserves_payload c8GenericPayload "workspace_deleted" rfl
    (by decide) (by decide) rfl (by decide) rfl (by decide) rfl rfl
